import Mathlib

/-!
Shallow embedding of the media-plan CRUD backend (src/app.py).

Request payloads are flat mappings from field names to JSON/form values
(the output of `get_request_data` in the source).  Each HTTP handler of
the source is embedded as a Lean function from an application state and a
request mapping to an optional (state, response) pair; `none` models an
uncaught Python exception — a failed `float`/`int` conversion, or an
IntegrityError raised by a commit that violates the schema constraints
declared in the model classes (NOT NULL on MediaBooking.campaign_name and
channel, NOT NULL on Invoice.invoice_number and vendor and UNIQUE on
Invoice.invoice_number) — in which case nothing is committed.  The current
time is passed explicitly as `now` (whole Unix seconds), standing for
`datetime.utcnow()`.
-/

namespace MediaApp

/-- A JSON / form value as seen by the Python handlers.  Form fields are
always `vstr`; JSON bodies may carry numbers, booleans and null as well.
A JSON number is modelled as a rational. -/
inductive Val where
  | vnull
  | vbool (b : Bool)
  | vnum (q : ℚ)
  | vstr (s : String)
deriving DecidableEq, Repr

/-- Python truthiness of a value (`bool(v)`): None, False, 0 and the empty
string are falsy, everything else is truthy. -/
def Val.truthy : Val → Bool
  | .vnull => false
  | .vbool b => b
  | .vnum q => decide (q ≠ 0)
  | .vstr s => decide (s ≠ "")

/-- Truthiness of `d.get(key)`: a missing key is `None`, hence falsy. -/
def optTruthy : Option Val → Bool
  | none => false
  | some v => v.truthy

/-- Python `x or d` for a defaultable field: the value if truthy, else the
default. -/
def pyOr (v : Option Val) (d : Val) : Val :=
  if optTruthy v then v.getD d else d

/-- Value of `digits` as a natural number (the digits are ASCII). -/
def digitsToNat (l : List Char) : Nat :=
  l.foldl (fun a c => a * 10 + (c.toNat - 48)) 0

/-- All characters are decimal digits. -/
def allDigits (l : List Char) : Bool :=
  l.all (fun c => c.isDigit)

/-- Python `int(s)` on a string: an optional sign followed by at least one
decimal digit.  (Surrounding whitespace and underscores accepted by the
real `int` are not modelled; no handler input in this development uses
them.) -/
def parseIntChars : List Char → Option Int
  | [] => none
  | c :: rest =>
    if c = '-' then
      if (!rest.isEmpty) && allDigits rest then some (-(digitsToNat rest : Int)) else none
    else if c = '+' then
      if (!rest.isEmpty) && allDigits rest then some ((digitsToNat rest : Int)) else none
    else if allDigits (c :: rest) then some ((digitsToNat (c :: rest) : Int)) else none

/-- Unsigned decimal literal, `"12"`, `"12."`, `".5"` or `"12.5"`. -/
def parseDecCore (l : List Char) : Option ℚ :=
  let ip := l.takeWhile (fun c => c != '.')
  let rest := l.dropWhile (fun c => c != '.')
  match rest with
  | [] => if (!ip.isEmpty) && allDigits ip then some ((digitsToNat ip : ℚ)) else none
  | _ :: frac =>
    if allDigits ip && allDigits frac && !(ip.isEmpty && frac.isEmpty) then
      some ((digitsToNat ip : ℚ) + (digitsToNat frac : ℚ) / ((10 : ℚ) ^ frac.length))
    else none

/-- Python `float(s)` on a string: optional sign and a decimal literal.
(Exponent, inf/nan and whitespace forms of the real `float` are not
modelled; no handler input in this development uses them.) -/
def parseDecChars : List Char → Option ℚ
  | [] => none
  | c :: rest =>
    if c = '-' then (parseDecCore rest).map (fun q => -q)
    else if c = '+' then parseDecCore rest
    else parseDecCore (c :: rest)

/-- Python `float(v)`: `none` models a raised exception. -/
def pyFloat : Val → Option ℚ
  | .vnum q => some q
  | .vstr s => parseDecChars s.data
  | .vbool b => some (if b then 1 else 0)
  | .vnull => none

/-- Python `int(v)`: numbers truncate toward zero, strings must be integer
literals; `none` models a raised exception. -/
def pyInt : Val → Option Int
  | .vnum q => some (q.num.tdiv (q.den : Int))
  | .vstr s => parseIntChars s.data
  | .vbool b => some (if b then 1 else 0)
  | .vnull => none

/-- `float(d.get(k) or 0)` as used by the creation handlers: a missing or
falsy value becomes `0`, otherwise the value is converted. -/
def floatOrZero (v : Option Val) : Option ℚ :=
  if optTruthy v then pyFloat (v.getD .vnull) else some 0

/-- `int(d.get(k) or 0)`. -/
def intOrZero (v : Option Val) : Option Int :=
  if optTruthy v then pyInt (v.getD .vnull) else some 0

/-- `(x or "")` followed by use as a string: a falsy value yields `""`, a
truthy string yields itself, and a truthy non-string raises (`none`),
modelling Python's `TypeError` on `+` between a non-string and a string. -/
def pyOrEmptyStr : Option Val → Option String
  | none => some ""
  | some v =>
    if v.truthy then
      match v with
      | .vstr s => some s
      | _ => none
    else some ""

/-- The integer key under which `Query.get` looks a value up against an
integer primary key: integral numbers and integer-literal strings resolve,
anything else matches no row. -/
def Val.asId : Val → Option Int
  | .vnum q => if q.den = 1 then some q.num else none
  | .vstr s => parseIntChars s.data
  | .vbool b => some (if b then 1 else 0)
  | .vnull => none

/-- Display rendering of a stored value for flash messages (Python `str`;
float formatting is not reproduced, messages are never inspected by the
handlers). -/
def pyDisplay : Option Val → String
  | none => "None"
  | some .vnull => "None"
  | some (.vstr s) => s
  | some (.vnum q) => toString q
  | some (.vbool b) => if b then "True" else "False"

/-- The flat request mapping produced by `get_request_data` (JSON object
or form fields). -/
def Req := List (String × Val)

/-- `d.get(k)`: first binding of the key; an explicit JSON null is
indistinguishable from an absent key for the handlers (`dict.get` returns
`None` for both), so it is normalised to `none`. -/
def Req.get : Req → String → Option Val
  | [], _ => none
  | (k, v) :: rest, key =>
    if k = key then (if v = .vnull then none else some v) else Req.get rest key

/-- Row of the media_booking table. -/
structure MediaBooking where
  id : Nat
  campaign_name : Option Val
  channel : Option Val
  market : Option Val
  vendor : Option Val
  start_date : Option Val
  end_date : Option Val
  unit_rate : ℚ
  units : Int
  budget : ℚ
  currency : Val
  status : Val
  created_at : Nat
deriving DecidableEq, Repr

/-- Row of the purchase_order table. -/
structure PurchaseOrder where
  id : Nat
  po_number : Val
  vendor : Val
  booking_id : Int
  total_amount : ℚ
  currency : Val
  status : Val
  created_at : Nat
deriving DecidableEq, Repr

/-- Row of the invoice table.  `booking_id`/`po_id` keep the raw value the
handler stored: the form handler stores the result of `int(... or 0)`
(a number), the JSON API handler stores the payload value unconverted. -/
structure Invoice where
  id : Nat
  invoice_number : Option Val
  vendor : Option Val
  booking_id : Option Val
  po_id : Option Val
  amount : ℚ
  tax_amount : ℚ
  currency : Val
  status : Val
  comments : Option Val
  created_at : Nat
deriving DecidableEq, Repr

/-- The persistent store: the three tables in insertion order. -/
structure AppState where
  bookings : List MediaBooking
  pos : List PurchaseOrder
  invoices : List Invoice
deriving DecidableEq, Repr

/-- An HTTP response: a JSON body with a status code, a redirect carrying a
flash message and category, or the HTML 404 page produced by
`get_or_404`. -/
inductive Resp where
  | json (code : Nat) (body : List (String × Val))
  | redirect (target : String) (flashMsg : String) (flashCat : String)
  | notFound
deriving DecidableEq, Repr

/-- `MediaBooking.query.get(v)` for a raw payload value. -/
def findBookingByKey (bookings : List MediaBooking) (v : Val) : Option MediaBooking :=
  match v.asId with
  | some n => bookings.find? (fun b => (b.id : Int) = n)
  | none => none

/-- `PurchaseOrder.query.get(v)` for a raw payload value. -/
def findPOByKey (pos : List PurchaseOrder) (v : Val) : Option PurchaseOrder :=
  match v.asId with
  | some n => pos.find? (fun po => (po.id : Int) = n)
  | none => none

/-- `Invoice.query.get_or_404(inv_id)` lookup part. -/
def findInvoice (invoices : List Invoice) (n : Nat) : Option Invoice :=
  invoices.find? (fun i => i.id = n)

/-- Set the status of the first purchase order with the given id to
"INVOICED" (the mutation `po.status = "INVOICED"` on the row returned by
`Query.get`). -/
def setInvoiced : List PurchaseOrder → Int → List PurchaseOrder
  | [], _ => []
  | po :: rest, n =>
    if (po.id : Int) = n then { po with status := .vstr "INVOICED" } :: rest
    else po :: setInvoiced rest n

/-- Replace the first invoice with the given id (mutation of the row
returned by `get_or_404`, then commit). -/
def setInvoiceFirst : List Invoice → Nat → Invoice → List Invoice
  | [], _, _ => []
  | i :: rest, n, newInv =>
    if i.id = n then newInv :: rest else i :: setInvoiceFirst rest n newInv

/-- The invoice-creation side effect: `if inv.po_id: po = get(inv.po_id);
if po: po.status = "INVOICED"`. -/
def invoiceSideEffect (pos : List PurchaseOrder) (pid : Option Val) : List PurchaseOrder :=
  if optTruthy pid then
    match (pid.getD .vnull).asId with
    | some n => setInvoiced pos n
    | none => pos
  else pos

/-- The schema constraints the database checks when a media_booking row is
inserted: campaign_name and channel are declared nullable=False, so the
commit raises IntegrityError (an uncaught exception, modelled as `none`)
when either is NULL. -/
def bookingInsertOk (b : MediaBooking) : Bool :=
  b.campaign_name.isSome && b.channel.isSome

/-- The schema constraints the database checks when an invoice row is
inserted: invoice_number is declared unique and nullable=False and vendor
nullable=False, so the commit raises IntegrityError (modelled as `none`)
when either is NULL or the invoice_number equals a stored one. -/
def invoiceInsertOk (invoices : List Invoice) (inv : Invoice) : Bool :=
  inv.invoice_number.isSome && inv.vendor.isSome &&
    invoices.all (fun i => i.invoice_number ≠ inv.invoice_number)

/-- Construction of the `MediaBooking(...)` row shared verbatim by the two
booking-creation handlers (src/app.py lines 100-112 and 240-252). -/
def mkBooking (newId : Nat) (req : Req) (now : Nat) : Option MediaBooking := do
  let ur ← floatOrZero (req.get "unit_rate")
  let un ← intOrZero (req.get "units")
  let bu ← floatOrZero (req.get "budget")
  some { id := newId, campaign_name := req.get "campaign_name",
         channel := req.get "channel", market := req.get "market",
         vendor := req.get "vendor", start_date := req.get "start_date",
         end_date := req.get "end_date", unit_rate := ur, units := un,
         budget := bu, currency := pyOr (req.get "currency") (.vstr "USD"),
         status := pyOr (req.get "status") (.vstr "PLANNED"), created_at := now }

/-- The 201 body returned on booking creation. -/
def bookingCreatedBody (b : MediaBooking) : List (String × Val) :=
  [("id", .vnum (b.id : ℚ)), ("status", b.status), ("message", .vstr "Media booking created")]

/-- POST /media-bookings (dual form/JSON handler).  The commit enforces
the NOT NULL constraints of the schema. -/
def media_bookings_post (st : AppState) (req : Req) (isJson : Bool) (now : Nat) :
    Option (AppState × Resp) :=
  match mkBooking (st.bookings.length + 1) req now with
  | none => none
  | some b =>
    if bookingInsertOk b then
      some ({ st with bookings := st.bookings ++ [b] },
        if isJson then .json 201 (bookingCreatedBody b)
        else .redirect "media_bookings" "Media booking created successfully." "success")
    else none

/-- POST /api/media-bookings (JSON-only handler).  The commit enforces the
NOT NULL constraints of the schema. -/
def api_create_booking (st : AppState) (data : Req) (now : Nat) :
    Option (AppState × Resp) :=
  match mkBooking (st.bookings.length + 1) data now with
  | none => none
  | some b =>
    if bookingInsertOk b then
      some ({ st with bookings := st.bookings ++ [b] }, .json 201 (bookingCreatedBody b))
    else none

/-- POST /purchase-orders (dual form/JSON handler): required po_number and
vendor, duplicate check, then insert. -/
def purchase_orders_post (st : AppState) (req : Req) (isJson : Bool) (now : Nat) :
    Option (AppState × Resp) :=
  let pn := req.get "po_number"
  let vd := req.get "vendor"
  if optTruthy pn = false then
    some (st, if isJson then .json 400 [("error", .vstr "po_number is required")]
              else .redirect "purchase_orders" "PO Number is required." "danger")
  else if optTruthy vd = false then
    some (st, if isJson then .json 400 [("error", .vstr "vendor is required")]
              else .redirect "purchase_orders" "Vendor is required." "danger")
  else if (st.pos.find? (fun po => po.po_number = pn.getD .vnull)).isSome then
    some (st, if isJson then .json 409 [("error", .vstr "PO number already exists")]
              else .redirect "purchase_orders"
                "PO Number already exists. Please enter a different value." "danger")
  else do
    let bid ← intOrZero (req.get "booking_id")
    let ta ← floatOrZero (req.get "total_amount")
    let po : PurchaseOrder :=
      { id := st.pos.length + 1, po_number := pn.getD .vnull, vendor := vd.getD .vnull,
        booking_id := bid, total_amount := ta,
        currency := pyOr (req.get "currency") (.vstr "USD"),
        status := pyOr (req.get "status") (.vstr "CREATED"), created_at := now }
    some ({ st with pos := st.pos ++ [po] },
      if isJson then .json 201 [("id", .vnum (po.id : ℚ)), ("po_number", po.po_number),
                                ("status", po.status), ("message", .vstr "Purchase order created")]
      else .redirect "purchase_orders" "Purchase order created successfully." "success")

/-- The created row of a successful POST /api/purchase-orders, as a
function of the request, the resolved booking, the chosen po_number value
and the clock (the `PurchaseOrder(...)` constructor call of the source
handler, with the vendor-substitution expression inlined). -/
def apiPoRow (st : AppState) (data : Req) (now : Nat) (booking : MediaBooking)
    (po_number : Val) (bid : Int) (ta : ℚ) : PurchaseOrder :=
  { id := st.pos.length + 1, po_number := po_number,
    vendor := (if optTruthy (data.get "vendor") then data.get "vendor"
               else booking.vendor).getD .vnull,
    booking_id := bid, total_amount := ta,
    currency := pyOr (data.get "currency") (.vstr "USD"),
    status := pyOr (data.get "status") (.vstr "CREATED"), created_at := now }

/-- The tail of POST /api/purchase-orders after the po_number logic
(vendor substitution, required-vendor check, insert, 201 body), shared by
the explicit-po_number and auto-generated branches of the source
handler. -/
def api_create_po_finish (st : AppState) (data : Req) (now : Nat) (booking : MediaBooking)
    (po_number : Val) : Option (AppState × Resp) :=
  if optTruthy (if optTruthy (data.get "vendor") then data.get "vendor"
      else booking.vendor) = false then
    some (st, .json 400 [("error", .vstr "vendor is required")])
  else do
    let bid ← pyInt ((data.get "booking_id").getD .vnull)
    let ta ← floatOrZero (data.get "total_amount")
    some ({ st with pos := st.pos ++ [apiPoRow st data now booking po_number bid ta] },
      .json 201 [("id", .vnum ((st.pos.length + 1 : Nat) : ℚ)),
                 ("po_number", po_number),
                 ("booking_id", .vnum (bid : ℚ)),
                 ("status", pyOr (data.get "status") (.vstr "CREATED")),
                 ("message", .vstr "PO created successfully")])

/-- POST /api/purchase-orders: mandatory booking_id resolving to a stored
booking, optional po_number (auto-generated from the clock when falsy,
duplicate-checked when truthy), vendor defaulting to the booking's. -/
def api_create_po (st : AppState) (data : Req) (now : Nat) :
    Option (AppState × Resp) :=
  if optTruthy (data.get "booking_id") = false then
    some (st, .json 400 [("error", .vstr "booking_id is required")])
  else
    match findBookingByKey st.bookings ((data.get "booking_id").getD .vnull) with
    | none => some (st, .json 404 [("error", .vstr "Invalid booking_id")])
    | some booking =>
      let pn := data.get "po_number"
      if optTruthy pn = true then
        if (st.pos.find? (fun po => po.po_number = pn.getD .vnull)).isSome then
          some (st, .json 409 [("error", .vstr "PO number already exists")])
        else api_create_po_finish st data now booking (pn.getD .vnull)
      else api_create_po_finish st data now booking (.vstr ("PO-" ++ toString now))

/-- Construction of the `Invoice(...)` row by the form handler
(src/app.py lines 194-204): booking_id and po_id pass through
`int(... or 0)`. -/
def mkInvoiceForm (newId : Nat) (req : Req) (now : Nat) : Option Invoice := do
  let bid ← intOrZero (req.get "booking_id")
  let pid ← intOrZero (req.get "po_id")
  let am ← floatOrZero (req.get "amount")
  let tx ← floatOrZero (req.get "tax_amount")
  some { id := newId, invoice_number := req.get "invoice_number",
         vendor := req.get "vendor", booking_id := some (.vnum (bid : ℚ)),
         po_id := some (.vnum (pid : ℚ)), amount := am, tax_amount := tx,
         currency := pyOr (req.get "currency") (.vstr "USD"),
         status := pyOr (req.get "status") (.vstr "RECEIVED"),
         comments := req.get "comments", created_at := now }

/-- Construction of the `Invoice(...)` row by the JSON API handler
(src/app.py lines 342-352): booking_id and po_id are stored raw. -/
def mkInvoiceApi (newId : Nat) (data : Req) (now : Nat) : Option Invoice := do
  let am ← floatOrZero (data.get "amount")
  let tx ← floatOrZero (data.get "tax_amount")
  some { id := newId, invoice_number := data.get "invoice_number",
         vendor := data.get "vendor", booking_id := data.get "booking_id",
         po_id := data.get "po_id", amount := am, tax_amount := tx,
         currency := pyOr (data.get "currency") (.vstr "USD"),
         status := pyOr (data.get "status") (.vstr "RECEIVED"),
         comments := data.get "comments", created_at := now }

/-- The 201 body returned on invoice creation. -/
def invoiceCreatedBody (inv : Invoice) : List (String × Val) :=
  [("id", .vnum (inv.id : ℚ)), ("status", inv.status), ("message", .vstr "Invoice created")]

/-- POST /invoices (dual form/JSON handler): insert the invoice (the
commit enforcing the schema's NOT NULL/UNIQUE constraints; a violation
raises before the side effect runs and persists nothing), then run the PO
status side effect. -/
def invoices_post (st : AppState) (req : Req) (isJson : Bool) (now : Nat) :
    Option (AppState × Resp) :=
  match mkInvoiceForm (st.invoices.length + 1) req now with
  | none => none
  | some inv =>
    if invoiceInsertOk st.invoices inv then
      some ({ st with invoices := st.invoices ++ [inv],
                      pos := invoiceSideEffect st.pos inv.po_id },
        if isJson then .json 201 (invoiceCreatedBody inv)
        else .redirect "invoices" "Invoice created successfully." "success")
    else none

/-- POST /api/invoices: insert the invoice (the commit enforcing the
schema's NOT NULL/UNIQUE constraints; a violation raises before the side
effect runs and persists nothing), then run the PO status side effect. -/
def api_create_invoice (st : AppState) (data : Req) (now : Nat) :
    Option (AppState × Resp) :=
  match mkInvoiceApi (st.invoices.length + 1) data now with
  | none => none
  | some inv =>
    if invoiceInsertOk st.invoices inv then
      some ({ st with invoices := st.invoices ++ [inv],
                      pos := invoiceSideEffect st.pos inv.po_id },
        .json 201 (invoiceCreatedBody inv))
    else none

/-- POST /api/invoices/(id)/approve: unconditional transition to APPROVED
with a fixed audit line. -/
def api_approve_invoice (st : AppState) (inv_id : Nat) : Option (AppState × Resp) :=
  match findInvoice st.invoices inv_id with
  | none => some (st, .notFound)
  | some inv => do
    let base ← pyOrEmptyStr inv.comments
    let inv2 := { inv with
                  status := .vstr "APPROVED"
                  comments := some (.vstr (base ++ "\nAuto-approved by Agent.")) }
    some ({ st with invoices := setInvoiceFirst st.invoices inv_id inv2 },
          .json 200 [("message", .vstr "Invoice approved"), ("status", inv2.status)])

/-- POST /api/invoices/(id)/flag: unconditional transition to FLAGGED with
a caller-supplied or default reason. -/
def api_flag_invoice (st : AppState) (inv_id : Nat) (data : Req) :
    Option (AppState × Resp) :=
  match findInvoice st.invoices inv_id with
  | none => some (st, .notFound)
  | some inv => do
    let reason ←
      match pyOr (data.get "reason") (.vstr "Flagged for manual review") with
      | .vstr s => some s
      | _ => none
    let base ← pyOrEmptyStr inv.comments
    let inv2 := { inv with
                  status := .vstr "FLAGGED"
                  comments := some (.vstr (base ++ "\nFLAG: " ++ reason)) }
    some ({ st with invoices := setInvoiceFirst st.invoices inv_id inv2 },
          .json 200 [("message", .vstr "Invoice flagged"), ("status", inv2.status)])

/-- POST /send-invoice/(id): guarded transition, only from status
"RECEIVED". -/
def send_invoice (st : AppState) (inv_id : Nat) : Option (AppState × Resp) :=
  match findInvoice st.invoices inv_id with
  | none => some (st, .notFound)
  | some inv =>
    if inv.status ≠ .vstr "RECEIVED" then
      some (st, .redirect "invoices" "Invoice already processed." "warning")
    else do
      let base ← pyOrEmptyStr inv.comments
      let inv2 := { inv with
                    status := .vstr "APPROVED"
                    comments := some (.vstr (base ++ "\nInvoice sent for validation.")) }
      some ({ st with invoices := setInvoiceFirst st.invoices inv_id inv2 },
            .redirect "invoices"
              ("Invoice " ++ pyDisplay inv.invoice_number ++ " sent for validation.") "success")

/-- One entry of the purchase_orders list in the has-po response. -/
structure POEntry where
  id : Nat
  po_number : Val
  status : Val
  amount : ℚ
  created_at : Nat
deriving DecidableEq, Repr

/-- Result of GET /api/bookings/(id)/has-po. -/
inductive HasPoResult where
  | notFound
  | ok (booking_id : Nat) (has_po : Bool) (po_count : Nat) (purchase_orders : List POEntry)
deriving DecidableEq, Repr

/-- Projection of a stored purchase order into a has-po list entry. -/
def poEntry (po : PurchaseOrder) : POEntry :=
  { id := po.id, po_number := po.po_number, status := po.status,
    amount := po.total_amount, created_at := po.created_at }

/-- `PurchaseOrder.query.filter_by(booking_id=bid).all()`: the stored
orders referencing the booking, in stored insertion order. -/
def bookingPOs (pos : List PurchaseOrder) (bid : Nat) : List PurchaseOrder :=
  pos.filter (fun po => po.booking_id = (bid : Int))

/-- GET /api/bookings/(id)/has-po. -/
def api_booking_has_po (st : AppState) (bid : Nat) : HasPoResult :=
  match st.bookings.find? (fun b => b.id = bid) with
  | none => .notFound
  | some _ =>
    let pos := bookingPOs st.pos bid
    .ok bid (decide (0 < pos.length)) pos.length (pos.map poEntry)

/-! Basic facts about the coercion helpers. -/

/-- A field is absent from the request, or supplied as the empty string. -/
def absentOrEmpty (v : Option Val) : Prop :=
  v = none ∨ v = some (.vstr "")

theorem optTruthy_absent {v : Option Val} (h : absentOrEmpty v) : optTruthy v = false := by
  rcases h with h | h <;> simp [h, optTruthy, Val.truthy]

theorem floatOrZero_absent {v : Option Val} (h : absentOrEmpty v) : floatOrZero v = some 0 := by
  simp [floatOrZero, optTruthy_absent h]

theorem intOrZero_absent {v : Option Val} (h : absentOrEmpty v) : intOrZero v = some 0 := by
  simp [intOrZero, optTruthy_absent h]

theorem pyOr_absent {v : Option Val} (d : Val) (h : absentOrEmpty v) : pyOr v d = d := by
  simp [pyOr, optTruthy_absent h]

theorem pyInt_of_asId {v : Val} {n : Int} (h : v.asId = some n) : pyInt v = some n := by
  cases v with
  | vnull => simp [Val.asId] at h
  | vbool b => simpa [Val.asId, pyInt] using h
  | vstr s => simpa [Val.asId, pyInt] using h
  | vnum q =>
    simp only [Val.asId] at h
    split at h
    · next hden =>
      obtain rfl : q.num = n := by simpa using h
      simp [pyInt, hden, Int.tdiv_one]
    · simp at h

theorem truthy_of_asId {v : Val} {n : Int} (ha : v.asId = some n) (hn : n ≠ 0) :
    v.truthy = true := by
  cases v with
  | vnull => simp [Val.asId] at ha
  | vbool b =>
    cases b with
    | false => simp [Val.asId] at ha; exact absurd ha.symm hn
    | true => rfl
  | vstr s =>
    cases hd : s.data with
    | nil =>
      simp only [Val.asId, hd] at ha
      simp [parseIntChars] at ha
    | cons c l =>
      simp only [Val.truthy, decide_eq_true_eq]
      intro he; subst he; simp at hd
  | vnum q =>
    simp only [Val.asId] at ha
    split at ha
    · next hden =>
      obtain rfl : q.num = n := by simpa using ha
      simp only [Val.truthy, decide_eq_true_eq]
      intro he; subst he; simp at hn
    · simp at ha

/-! Facts about the PO-status side effect and row updates. -/

theorem setInvoiced_eq_self {l : List PurchaseOrder} {n : Int}
    (h : ∀ po ∈ l, (po.id : Int) ≠ n) : setInvoiced l n = l := by
  induction l with
  | nil => rfl
  | cons a rest ih =>
    rw [setInvoiced, if_neg (h a (List.mem_cons_self a rest)),
        ih (fun po hm => h po (List.mem_cons_of_mem a hm))]

theorem setInvoiced_find {l : List PurchaseOrder} {n : Int} {po : PurchaseOrder}
    (h : l.find? (fun p => (p.id : Int) = n) = some po) :
    (setInvoiced l n).find? (fun p => (p.id : Int) = n)
      = some { po with status := .vstr "INVOICED" } := by
  induction l with
  | nil => simp at h
  | cons a rest ih =>
    by_cases ha : ((a.id : Int) = n)
    · rw [List.find?_cons_of_pos _ (by simpa using ha)] at h
      obtain rfl : a = po := by simpa using h
      rw [setInvoiced, if_pos ha]
      exact List.find?_cons_of_pos _ (by simpa using ha)
    · rw [List.find?_cons_of_neg _ (by simpa using ha)] at h
      rw [setInvoiced, if_neg ha]
      rw [List.find?_cons_of_neg _ (by simpa using ha)]
      exact ih h

theorem setInvoiceFirst_find {l : List Invoice} {n : Nat} {inv inv2 : Invoice}
    (h : l.find? (fun i => i.id = n) = some inv) (h2 : inv2.id = n) :
    (setInvoiceFirst l n inv2).find? (fun i => i.id = n) = some inv2 := by
  induction l with
  | nil => simp at h
  | cons a rest ih =>
    by_cases ha : (a.id = n)
    · rw [setInvoiceFirst, if_pos ha]
      exact List.find?_cons_of_pos _ (by simpa using h2)
    · rw [List.find?_cons_of_neg _ (by simpa using ha)] at h
      rw [setInvoiceFirst, if_neg ha]
      rw [List.find?_cons_of_neg _ (by simpa using ha)]
      exact ih h

theorem invoiceSideEffect_fires {pos : List PurchaseOrder} {v : Val} {n : Int}
    (ht : v.truthy = true) (ha : v.asId = some n) :
    invoiceSideEffect pos (some v) = setInvoiced pos n := by
  simp [invoiceSideEffect, optTruthy, ht, ha]

theorem invoiceSideEffect_falsy {pos : List PurchaseOrder} {v : Option Val}
    (h : optTruthy v = false) : invoiceSideEffect pos v = pos := by
  simp [invoiceSideEffect, h]

theorem invoiceSideEffect_noId {pos : List PurchaseOrder} {v : Val}
    (h : v.asId = none) : invoiceSideEffect pos (some v) = pos := by
  unfold invoiceSideEffect
  split
  · simp [h]
  · rfl

/-! Inversion of the invoice-creation handlers. -/

theorem mkInvoiceForm_spec {newId : Nat} {req : Req} {now : Nat} {inv : Invoice}
    (h : mkInvoiceForm newId req now = some inv) :
    ∃ bid pid, intOrZero (req.get "booking_id") = some bid ∧
      intOrZero (req.get "po_id") = some pid ∧
      inv.booking_id = some (.vnum (bid : ℚ)) ∧ inv.po_id = some (.vnum (pid : ℚ)) := by
  cases hb : intOrZero (req.get "booking_id") with
  | none => simp [mkInvoiceForm, hb] at h
  | some bid =>
    cases hp : intOrZero (req.get "po_id") with
    | none => simp [mkInvoiceForm, hb, hp] at h
    | some pid =>
      cases ha : floatOrZero (req.get "amount") with
      | none => simp [mkInvoiceForm, hb, hp, ha] at h
      | some am =>
        cases ht : floatOrZero (req.get "tax_amount") with
        | none => simp [mkInvoiceForm, hb, hp, ha, ht] at h
        | some tx =>
          refine ⟨bid, pid, rfl, rfl, ?_, ?_⟩ <;>
          · simp [mkInvoiceForm, hb, hp, ha, ht] at h
            rw [← h]

theorem mkInvoiceApi_spec {newId : Nat} {data : Req} {now : Nat} {inv : Invoice}
    (h : mkInvoiceApi newId data now = some inv) :
    inv.booking_id = data.get "booking_id" ∧ inv.po_id = data.get "po_id" := by
  cases ha : floatOrZero (data.get "amount") with
  | none => simp [mkInvoiceApi, ha] at h
  | some am =>
    cases ht : floatOrZero (data.get "tax_amount") with
    | none => simp [mkInvoiceApi, ha, ht] at h
    | some tx =>
      refine ⟨?_, ?_⟩ <;>
      · simp [mkInvoiceApi, ha, ht] at h
        rw [← h]

theorem invoices_post_eq {st : AppState} {req : Req} {isJson : Bool} {now : Nat}
    {st' : AppState} {resp : Resp}
    (h : invoices_post st req isJson now = some (st', resp)) :
    ∃ inv, mkInvoiceForm (st.invoices.length + 1) req now = some inv ∧
      invoiceInsertOk st.invoices inv = true ∧
      st' = { st with invoices := st.invoices ++ [inv],
                      pos := invoiceSideEffect st.pos inv.po_id } ∧
      resp = (if isJson then Resp.json 201 (invoiceCreatedBody inv)
              else Resp.redirect "invoices" "Invoice created successfully." "success") := by
  unfold invoices_post at h
  cases hmk : mkInvoiceForm (st.invoices.length + 1) req now with
  | none => rw [hmk] at h; cases h
  | some inv =>
    rw [hmk] at h
    by_cases hok : invoiceInsertOk st.invoices inv = true
    · obtain ⟨h1, h2⟩ : _ ∧ _ := by simpa [hok] using h
      exact ⟨inv, rfl, hok, h1.symm, h2.symm⟩
    · simp [hok] at h

theorem api_create_invoice_eq {st : AppState} {data : Req} {now : Nat}
    {st' : AppState} {resp : Resp}
    (h : api_create_invoice st data now = some (st', resp)) :
    ∃ inv, mkInvoiceApi (st.invoices.length + 1) data now = some inv ∧
      invoiceInsertOk st.invoices inv = true ∧
      st' = { st with invoices := st.invoices ++ [inv],
                      pos := invoiceSideEffect st.pos inv.po_id } ∧
      resp = Resp.json 201 (invoiceCreatedBody inv) := by
  unfold api_create_invoice at h
  cases hmk : mkInvoiceApi (st.invoices.length + 1) data now with
  | none => rw [hmk] at h; cases h
  | some inv =>
    rw [hmk] at h
    by_cases hok : invoiceInsertOk st.invoices inv = true
    · obtain ⟨h1, h2⟩ : _ ∧ _ := by simpa [hok] using h
      exact ⟨inv, rfl, hok, h1.symm, h2.symm⟩
    · simp [hok] at h

theorem mkBooking_fields {newId : Nat} {req : Req} {now : Nat} {b : MediaBooking}
    (h : mkBooking newId req now = some b) :
    b.campaign_name = req.get "campaign_name" ∧ b.channel = req.get "channel" := by
  cases h1 : floatOrZero (req.get "unit_rate") with
  | none => simp [mkBooking, h1] at h
  | some ur =>
    cases h2 : intOrZero (req.get "units") with
    | none => simp [mkBooking, h1, h2] at h
    | some un =>
      cases h3 : floatOrZero (req.get "budget") with
      | none => simp [mkBooking, h1, h2, h3] at h
      | some bu =>
        refine ⟨?_, ?_⟩ <;>
        · simp [mkBooking, h1, h2, h3] at h
          rw [← h]

/-! Claims. -/

def c5_st : AppState := { bookings := [], pos := [], invoices := [] }

def c5_req0 : Req := []

/-- Claim C5, counterexample: at the empty request every claimed field is
absent, so the claim predicts a persisted all-defaults booking answered
with HTTP 201; but campaign_name and channel are then NULL, the commit
violates their NOT NULL constraints, and both handlers fail with an
unhandled error (HTTP 500) persisting nothing. -/
theorem c5_counterexample :
    c5_req0.get "unit_rate" = none ∧ c5_req0.get "units" = none ∧
    c5_req0.get "budget" = none ∧ c5_req0.get "currency" = none ∧
    c5_req0.get "status" = none ∧
    media_bookings_post c5_st c5_req0 true 3 = none ∧
    api_create_booking c5_st c5_req0 3 = none := by
  refine ⟨rfl, rfl, rfl, rfl, rfl, by decide, by decide⟩

/-- The all-defaults booking row built when every defaultable field is
absent or empty. -/
def c5_row (st : AppState) (req : Req) (now : Nat) : MediaBooking :=
  { id := st.bookings.length + 1, campaign_name := req.get "campaign_name",
    channel := req.get "channel", market := req.get "market",
    vendor := req.get "vendor", start_date := req.get "start_date",
    end_date := req.get "end_date", unit_rate := 0, units := 0,
    budget := 0, currency := .vstr "USD", status := .vstr "PLANNED",
    created_at := now }

/-- Claim C5 (amended): for every booking-creation request (form path or
API path) that supplies campaign_name and channel (the schema's NOT NULL
columns, without which the commit fails) and in which unit_rate, units,
budget, currency or status are absent or empty, the persisted booking has
unit_rate = 0, units = 0, budget = 0, currency = "USD", status = "PLANNED"
for the omitted fields, and JSON callers receive HTTP 201 with a body
containing id, status and message. -/
theorem c5_booking_defaults (st : AppState) (req : Req) (isJson : Bool) (now : Nat)
    (hur : absentOrEmpty (req.get "unit_rate")) (hun : absentOrEmpty (req.get "units"))
    (hbu : absentOrEmpty (req.get "budget")) (hcu : absentOrEmpty (req.get "currency"))
    (hst : absentOrEmpty (req.get "status"))
    (hcn : (req.get "campaign_name").isSome = true)
    (hch : (req.get "channel").isSome = true) :
    (∃ b : MediaBooking,
      media_bookings_post st req isJson now
        = some ({ st with bookings := st.bookings ++ [b] },
            if isJson then Resp.json 201 (bookingCreatedBody b)
            else Resp.redirect "media_bookings" "Media booking created successfully." "success") ∧
      b.unit_rate = 0 ∧ b.units = 0 ∧ b.budget = 0 ∧
      b.currency = .vstr "USD" ∧ b.status = .vstr "PLANNED") ∧
    (∃ b : MediaBooking,
      api_create_booking st req now
        = some ({ st with bookings := st.bookings ++ [b] },
            Resp.json 201 (bookingCreatedBody b)) ∧
      b.unit_rate = 0 ∧ b.units = 0 ∧ b.budget = 0 ∧
      b.currency = .vstr "USD" ∧ b.status = .vstr "PLANNED") := by
  have hmk : mkBooking (st.bookings.length + 1) req now = some (c5_row st req now) := by
    rw [mkBooking, floatOrZero_absent hur, intOrZero_absent hun, floatOrZero_absent hbu,
        pyOr_absent (.vstr "USD") hcu, pyOr_absent (.vstr "PLANNED") hst]
    rfl
  have hok : bookingInsertOk (c5_row st req now) = true := by
    simp [bookingInsertOk, c5_row, hcn, hch]
  constructor
  · refine ⟨c5_row st req now, ?_, rfl, rfl, rfl, rfl, rfl⟩
    rw [media_bookings_post, hmk]
    show (if bookingInsertOk (c5_row st req now) = true then _ else _) = _
    rw [if_pos hok]
  · refine ⟨c5_row st req now, ?_, rfl, rfl, rfl, rfl, rfl⟩
    rw [api_create_booking, hmk]
    show (if bookingInsertOk (c5_row st req now) = true then _ else _) = _
    rw [if_pos hok]

def c5_req : Req := [("campaign_name", .vstr "C"), ("channel", .vstr "TV")]

theorem c5_booking_defaults_witness :
    (∃ b : MediaBooking,
      media_bookings_post c5_st c5_req true 3
        = some ({ c5_st with bookings := c5_st.bookings ++ [b] },
            if true then Resp.json 201 (bookingCreatedBody b)
            else Resp.redirect "media_bookings" "Media booking created successfully." "success") ∧
      b.unit_rate = 0 ∧ b.units = 0 ∧ b.budget = 0 ∧
      b.currency = .vstr "USD" ∧ b.status = .vstr "PLANNED") ∧
    (∃ b : MediaBooking,
      api_create_booking c5_st c5_req 3
        = some ({ c5_st with bookings := c5_st.bookings ++ [b] },
            Resp.json 201 (bookingCreatedBody b)) ∧
      b.unit_rate = 0 ∧ b.units = 0 ∧ b.budget = 0 ∧
      b.currency = .vstr "USD" ∧ b.status = .vstr "PLANNED") :=
  c5_booking_defaults c5_st c5_req true 3 (Or.inl (by decide)) (Or.inl (by decide))
    (Or.inl (by decide)) (Or.inl (by decide)) (Or.inl (by decide)) (by decide) (by decide)

def c8_st : AppState := { bookings := [], pos := [], invoices := [] }

def c8_req : Req := [("channel", .vstr "TV")]

/-- Claim C8, counterexample: with campaign_name absent the claim predicts
a persisted booking carrying a null campaign_name and HTTP 201; but the
column is declared nullable=False, so the commit raises IntegrityError
and both handlers fail with an unhandled error (HTTP 500), persisting
nothing and returning no 201. -/
theorem c8_counterexample :
    c8_req.get "campaign_name" = none ∧
    media_bookings_post c8_st c8_req true 4 = none ∧
    api_create_booking c8_st c8_req 4 = none := by
  refine ⟨by decide, by decide, by decide⟩

/-- Claim C8 (amended): for every booking-creation request in which
campaign_name or channel is absent, the handler itself applies no
required-field validation (no 400 validation answer is produced), but the
insert violates the schema's NOT NULL constraint on the absent column:
the commit raises IntegrityError, the request fails as an unhandled error
(HTTP 500) on both the form path and the API path, and nothing is
persisted — absence is rejected by the database, not stored as null with
a 201. -/
theorem c8_booking_not_null_rejected (st : AppState) (req : Req) (isJson : Bool) (now : Nat)
    (habs : req.get "campaign_name" = none ∨ req.get "channel" = none) :
    media_bookings_post st req isJson now = none ∧
    api_create_booking st req now = none := by
  have hko : ∀ b : MediaBooking, mkBooking (st.bookings.length + 1) req now = some b →
      bookingInsertOk b = false := by
    intro b hmk
    obtain ⟨hcamp, hchan⟩ := mkBooking_fields hmk
    rcases habs with h | h
    · simp [bookingInsertOk, hcamp, h]
    · simp [bookingInsertOk, hchan, h]
  constructor
  · rw [media_bookings_post]
    cases hmk : mkBooking (st.bookings.length + 1) req now with
    | none => rfl
    | some b =>
      show (if bookingInsertOk b = true then _ else _) = _
      rw [if_neg (by simp [hko b hmk])]
  · rw [api_create_booking]
    cases hmk : mkBooking (st.bookings.length + 1) req now with
    | none => rfl
    | some b =>
      show (if bookingInsertOk b = true then _ else _) = _
      rw [if_neg (by simp [hko b hmk])]

theorem c8_booking_not_null_rejected_witness :
    media_bookings_post c8_st c8_req true 4 = none ∧
    api_create_booking c8_st c8_req 4 = none :=
  c8_booking_not_null_rejected c8_st c8_req true 4 (Or.inl (by decide))

/-- Claim C6: for every form-path purchase-order creation request with a
missing or empty po_number, or a missing or empty vendor, the request is
rejected — HTTP 400 for JSON callers, a redirect with an error flash for
form callers — and no purchase-order row is persisted (the state is
returned unchanged). -/
theorem c6_form_po_validation (st : AppState) (req : Req) (isJson : Bool) (now : Nat)
    (h : absentOrEmpty (req.get "po_number") ∨ absentOrEmpty (req.get "vendor")) :
    ∃ resp, purchase_orders_post st req isJson now = some (st, resp) ∧
      (isJson = true → ∃ msg, resp = Resp.json 400 [("error", Val.vstr msg)]) ∧
      (isJson = false → ∃ msg, resp = Resp.redirect "purchase_orders" msg "danger") := by
  by_cases hpn : optTruthy (req.get "po_number") = false
  · refine ⟨if isJson then Resp.json 400 [("error", Val.vstr "po_number is required")]
            else Resp.redirect "purchase_orders" "PO Number is required." "danger", ?_, ?_, ?_⟩
    · simp only [purchase_orders_post]
      rw [if_pos hpn]
    · intro hj; subst hj; exact ⟨_, rfl⟩
    · intro hj; subst hj; exact ⟨_, rfl⟩
  · have hvd : optTruthy (req.get "vendor") = false := by
      rcases h with h | h
      · exact absurd (optTruthy_absent h) hpn
      · exact optTruthy_absent h
    refine ⟨if isJson then Resp.json 400 [("error", Val.vstr "vendor is required")]
            else Resp.redirect "purchase_orders" "Vendor is required." "danger", ?_, ?_, ?_⟩
    · simp only [purchase_orders_post]
      rw [if_neg hpn, if_pos hvd]
    · intro hj; subst hj; exact ⟨_, rfl⟩
    · intro hj; subst hj; exact ⟨_, rfl⟩

def c6_st : AppState := { bookings := [], pos := [], invoices := [] }

theorem c6_form_po_validation_witness :
    ∃ resp, purchase_orders_post c6_st [("vendor", .vstr "V")] true 0 = some (c6_st, resp) ∧
      (true = true → ∃ msg, resp = Resp.json 400 [("error", Val.vstr msg)]) ∧
      (true = false → ∃ msg, resp = Resp.redirect "purchase_orders" msg "danger") :=
  c6_form_po_validation c6_st [("vendor", .vstr "V")] true 0 (Or.inl (Or.inl (by decide)))

def c1_po : PurchaseOrder :=
  { id := 1, po_number := .vstr "PO-1", vendor := .vstr "V", booking_id := 0,
    total_amount := 0, currency := .vstr "USD", status := .vstr "CREATED", created_at := 0 }

def c1_st : AppState := { bookings := [], pos := [c1_po], invoices := [] }

def c1cex_req : Req := [("po_id", .vnum 1)]

/-- Claim C1, counterexample: a request supplying only a po_id that
resolves to stored purchase order 1 carries a NULL invoice_number and
vendor, so the commit violates the invoice schema's NOT NULL constraints
and raises before the side effect runs: both handlers fail with an
unhandled error (HTTP 500), no invoice row is persisted, no 201 is
returned and the purchase order's status stays "CREATED" — refuting the
claim's universal persist-and-INVOICED for such requests. -/
theorem c1_counterexample :
    c1cex_req.get "po_id" = some (.vnum 1) ∧
    findPOByKey c1_st.pos (.vnum 1) = some c1_po ∧
    c1_po.status = .vstr "CREATED" ∧
    invoices_post c1_st c1cex_req true 5 = none ∧
    api_create_invoice c1_st c1cex_req 5 = none := by
  refine ⟨rfl, by decide, rfl, by decide, by decide⟩

/-- The invoice row built by the form-path creation handler, as a function
of the conversion results. -/
def formInvoiceRow (st : AppState) (req : Req) (now : Nat) (bid pid : Int) (am tx : ℚ) :
    Invoice :=
  { id := st.invoices.length + 1, invoice_number := req.get "invoice_number",
    vendor := req.get "vendor", booking_id := some (.vnum (bid : ℚ)),
    po_id := some (.vnum (pid : ℚ)), amount := am, tax_amount := tx,
    currency := pyOr (req.get "currency") (.vstr "USD"),
    status := pyOr (req.get "status") (.vstr "RECEIVED"),
    comments := req.get "comments", created_at := now }

/-- The invoice row built by the API-path creation handler, as a function
of the conversion results. -/
def apiInvoiceRow (st : AppState) (req : Req) (now : Nat) (am tx : ℚ) : Invoice :=
  { id := st.invoices.length + 1, invoice_number := req.get "invoice_number",
    vendor := req.get "vendor", booking_id := req.get "booking_id",
    po_id := req.get "po_id", amount := am, tax_amount := tx,
    currency := pyOr (req.get "currency") (.vstr "USD"),
    status := pyOr (req.get "status") (.vstr "RECEIVED"),
    comments := req.get "comments", created_at := now }

/-- Claim C1 (amended): for every invoice-creation request (form path or
API path) whose po_id resolves to a stored purchase order and whose insert
satisfies the invoice schema constraints (invoice_number and vendor
supplied, invoice_number not equal to a stored one) and whose remaining
numeric conversions succeed, the request completes: the purchase order's
status becomes exactly "INVOICED" whatever it was before, the invoice row
is persisted, and JSON callers receive HTTP 201.  (`po.id ≠ 0` holds for
every row the store ever assigns, ids starting at 1.) -/
theorem c1_invoice_sets_po_invoiced (st : AppState) (req : Req) (isJson : Bool) (now : Nat)
    (v : Val) (po : PurchaseOrder)
    (hget : req.get "po_id" = some v)
    (hfind : findPOByKey st.pos v = some po)
    (hid : po.id ≠ 0)
    (hinvn : (req.get "invoice_number").isSome = true)
    (hven : (req.get "vendor").isSome = true)
    (huniq : st.invoices.all (fun i => i.invoice_number ≠ req.get "invoice_number") = true)
    (hbidp : (intOrZero (req.get "booking_id")).isSome = true)
    (hamp : (floatOrZero (req.get "amount")).isSome = true)
    (htxp : (floatOrZero (req.get "tax_amount")).isSome = true) :
    (∃ st' resp, invoices_post st req isJson now = some (st', resp) ∧
       st'.pos.find? (fun p => (p.id : Int) = (po.id : Int))
         = some { po with status := .vstr "INVOICED" } ∧
       (∃ inv, st'.invoices = st.invoices ++ [inv]) ∧
       (isJson = true → ∃ body, resp = Resp.json 201 body)) ∧
    (∃ st' resp, api_create_invoice st req now = some (st', resp) ∧
       st'.pos.find? (fun p => (p.id : Int) = (po.id : Int))
         = some { po with status := .vstr "INVOICED" } ∧
       (∃ inv, st'.invoices = st.invoices ++ [inv]) ∧
       (∃ body, resp = Resp.json 201 body)) := by
  obtain ⟨n, hasid, hfnd⟩ :
      ∃ n, v.asId = some n ∧ st.pos.find? (fun p => (p.id : Int) = n) = some po := by
    unfold findPOByKey at hfind
    cases hv : v.asId with
    | none => rw [hv] at hfind; cases hfind
    | some n => rw [hv] at hfind; exact ⟨n, rfl, hfind⟩
  have hpn : (po.id : Int) = n := by simpa using List.find?_some hfnd
  have hn0 : n ≠ 0 := hpn ▸ Int.natCast_ne_zero.mpr hid
  have htr : v.truthy = true := truthy_of_asId hasid hn0
  have hfire : invoiceSideEffect st.pos (some (.vnum (n : ℚ))) = setInvoiced st.pos n := by
    refine invoiceSideEffect_fires ?_ ?_
    · simp only [Val.truthy, decide_eq_true_eq]
      exact_mod_cast hn0
    · simp [Val.asId, Rat.den_intCast, Rat.num_intCast]
  obtain ⟨bid, hbid⟩ := Option.isSome_iff_exists.mp hbidp
  obtain ⟨am, ham⟩ := Option.isSome_iff_exists.mp hamp
  obtain ⟨tx, htx⟩ := Option.isSome_iff_exists.mp htxp
  have hpid : intOrZero (req.get "po_id") = some n := by
    rw [intOrZero, hget]
    simp only [optTruthy, htr, if_true]
    rw [Option.getD_some]
    exact pyInt_of_asId hasid
  constructor
  · have hmkF : mkInvoiceForm (st.invoices.length + 1) req now
        = some (formInvoiceRow st req now bid n am tx) := by
      rw [mkInvoiceForm, hbid, hpid, ham, htx]
      rfl
    have hokF : invoiceInsertOk st.invoices (formInvoiceRow st req now bid n am tx) = true := by
      simp only [invoiceInsertOk, formInvoiceRow, Bool.and_eq_true]
      exact ⟨⟨hinvn, hven⟩, huniq⟩
    refine ⟨{ st with
              invoices := st.invoices ++ [formInvoiceRow st req now bid n am tx]
              pos := invoiceSideEffect st.pos (some (.vnum (n : ℚ))) },
            if isJson then Resp.json 201 (invoiceCreatedBody (formInvoiceRow st req now bid n am tx))
            else Resp.redirect "invoices" "Invoice created successfully." "success",
            ?_, ?_, ?_, ?_⟩
    · rw [invoices_post, hmkF]
      show (if invoiceInsertOk st.invoices (formInvoiceRow st req now bid n am tx) = true
            then _ else _) = _
      rw [if_pos hokF]
      rfl
    · show (invoiceSideEffect st.pos (some (.vnum (n : ℚ)))).find? _ = _
      rw [hfire, hpn]
      exact setInvoiced_find hfnd
    · exact ⟨formInvoiceRow st req now bid n am tx, rfl⟩
    · intro hj; subst hj
      exact ⟨invoiceCreatedBody (formInvoiceRow st req now bid n am tx), if_pos rfl⟩
  · have hmkA : mkInvoiceApi (st.invoices.length + 1) req now
        = some (apiInvoiceRow st req now am tx) := by
      rw [mkInvoiceApi, ham, htx]
      rfl
    have hokA : invoiceInsertOk st.invoices (apiInvoiceRow st req now am tx) = true := by
      simp only [invoiceInsertOk, apiInvoiceRow, Bool.and_eq_true]
      exact ⟨⟨hinvn, hven⟩, huniq⟩
    refine ⟨{ st with
              invoices := st.invoices ++ [apiInvoiceRow st req now am tx]
              pos := invoiceSideEffect st.pos (req.get "po_id") },
            Resp.json 201 (invoiceCreatedBody (apiInvoiceRow st req now am tx)),
            ?_, ?_, ?_, ?_⟩
    · rw [api_create_invoice, hmkA]
      show (if invoiceInsertOk st.invoices (apiInvoiceRow st req now am tx) = true
            then _ else _) = _
      rw [if_pos hokA]
      rfl
    · show (invoiceSideEffect st.pos (req.get "po_id")).find? _ = _
      rw [hget, invoiceSideEffect_fires htr hasid, hpn]
      exact setInvoiced_find hfnd
    · exact ⟨apiInvoiceRow st req now am tx, rfl⟩
    · exact ⟨invoiceCreatedBody (apiInvoiceRow st req now am tx), rfl⟩

def c1_req : Req := [("po_id", .vnum 1), ("invoice_number", .vstr "I1"), ("vendor", .vstr "V")]

theorem c1_invoice_sets_po_invoiced_witness :
    (∃ st' resp, invoices_post c1_st c1_req true 5 = some (st', resp) ∧
       st'.pos.find? (fun p => (p.id : Int) = (c1_po.id : Int))
         = some { c1_po with status := .vstr "INVOICED" } ∧
       (∃ inv, st'.invoices = c1_st.invoices ++ [inv]) ∧
       (true = true → ∃ body, resp = Resp.json 201 body)) ∧
    (∃ st' resp, api_create_invoice c1_st c1_req 5 = some (st', resp) ∧
       st'.pos.find? (fun p => (p.id : Int) = (c1_po.id : Int))
         = some { c1_po with status := .vstr "INVOICED" } ∧
       (∃ inv, st'.invoices = c1_st.invoices ++ [inv]) ∧
       (∃ body, resp = Resp.json 201 body)) :=
  c1_invoice_sets_po_invoiced c1_st c1_req true 5 (.vnum 1) c1_po (by decide) (by decide)
    (by decide) (by decide) (by decide) (by decide) (by decide) (by decide) (by decide)

/-- Claim C10: for every invoice-creation request in which po_id is absent,
empty, equal to 0, or a nonzero id matching no stored purchase order, every
stored purchase order is left entirely unchanged; the form path stores the
integer 0 (not null) for an absent po_id and booking_id, and 0 never
triggers the PO-status side effect.  (On the form path the stored po_id is
the value of `int(form.get("po_id") or 0)`; absent and empty both yield 0,
and 0 covers the claim's first three cases at once.) -/
theorem c10_invoice_frame (st : AppState) (req : Req) (isJson : Bool) (now : Nat) :
    (∀ n st' resp, intOrZero (req.get "po_id") = some n →
       (n = 0 ∨ ∀ po ∈ st.pos, (po.id : Int) ≠ n) →
       invoices_post st req isJson now = some (st', resp) →
       st'.pos = st.pos ∧ st'.bookings = st.bookings) ∧
    (req.get "po_id" = none → req.get "booking_id" = none →
       ∀ st' resp, invoices_post st req isJson now = some (st', resp) →
       ∃ inv, st'.invoices = st.invoices ++ [inv] ∧
         inv.po_id = some (.vnum 0) ∧ inv.booking_id = some (.vnum 0) ∧
         st'.pos = st.pos) ∧
    (∀ st' resp,
       (optTruthy (req.get "po_id") = false ∨
        ∀ n, ((req.get "po_id").getD .vnull).asId = some n →
          ∀ po ∈ st.pos, (po.id : Int) ≠ n) →
       api_create_invoice st req now = some (st', resp) →
       st'.pos = st.pos ∧ st'.bookings = st.bookings) := by
  have effect_frame : ∀ (pid : Int), (pid = 0 ∨ ∀ po ∈ st.pos, (po.id : Int) ≠ pid) →
      invoiceSideEffect st.pos (some (.vnum (pid : ℚ))) = st.pos := by
    intro pid hcase
    by_cases hz : pid = 0
    · subst hz
      exact invoiceSideEffect_falsy (by simp [optTruthy, Val.truthy])
    · have hall : ∀ po ∈ st.pos, (po.id : Int) ≠ pid := by
        rcases hcase with h | h
        · exact absurd h hz
        · exact h
      rw [invoiceSideEffect_fires ?_ ?_]
      · exact setInvoiced_eq_self hall
      · simp only [Val.truthy, decide_eq_true_eq]
        exact_mod_cast hz
      · simp [Val.asId, Rat.den_intCast, Rat.num_intCast]
  refine ⟨?_, ?_, ?_⟩
  · intro n st' resp hn hcase hrun
    obtain ⟨inv, hmk, _, hst, _⟩ := invoices_post_eq hrun
    obtain ⟨bid, pid, hbid, hpid, hib, hip⟩ := mkInvoiceForm_spec hmk
    obtain rfl : n = pid := by rw [hn] at hpid; simpa using hpid
    subst hst
    exact ⟨by rw [hip]; exact effect_frame n hcase, rfl⟩
  · intro hpo hbk st' resp hrun
    obtain ⟨inv, hmk, _, hst, _⟩ := invoices_post_eq hrun
    obtain ⟨bid, pid, hbid, hpid, hib, hip⟩ := mkInvoiceForm_spec hmk
    obtain rfl : (0 : Int) = bid := by
      rw [hbk, intOrZero_absent (Or.inl rfl)] at hbid
      simpa using hbid
    obtain rfl : (0 : Int) = pid := by
      rw [hpo, intOrZero_absent (Or.inl rfl)] at hpid
      simpa using hpid
    subst hst
    refine ⟨inv, rfl, by simpa using hip, by simpa using hib, ?_⟩
    rw [hip]
    simpa using effect_frame 0 (Or.inl rfl)
  · intro st' resp hcase hrun
    obtain ⟨inv, hmk, _, hst, _⟩ := api_create_invoice_eq hrun
    obtain ⟨hib, hip⟩ := mkInvoiceApi_spec hmk
    subst hst
    refine ⟨?_, rfl⟩
    rw [hip]
    rcases hcase with h | hall
    · exact invoiceSideEffect_falsy h
    · cases hv : req.get "po_id" with
      | none => rfl
      | some v =>
        by_cases htr : v.truthy = true
        · cases ha : v.asId with
          | none => exact invoiceSideEffect_noId ha
          | some n =>
            rw [invoiceSideEffect_fires htr ha]
            refine setInvoiced_eq_self (hall n ?_)
            rw [hv]
            simpa using ha
        · refine invoiceSideEffect_falsy ?_
          simp only [optTruthy]
          exact Bool.not_eq_true _ ▸ htr

def c10_po : PurchaseOrder :=
  { id := 1, po_number := .vstr "PO-1", vendor := .vstr "V", booking_id := 0,
    total_amount := 0, currency := .vstr "USD", status := .vstr "CREATED", created_at := 0 }

def c10_st : AppState := { bookings := [], pos := [c10_po], invoices := [] }

def c10_req : Req :=
  [("po_id", .vnum 7), ("invoice_number", .vstr "I1"), ("vendor", .vstr "V")]

def c10_inv : Invoice :=
  { id := 1, invoice_number := some (.vstr "I1"), vendor := some (.vstr "V"),
    booking_id := some (.vnum 0), po_id := some (.vnum 7), amount := 0, tax_amount := 0,
    currency := .vstr "USD", status := .vstr "RECEIVED", comments := none, created_at := 2 }

def c10_st' : AppState := { bookings := [], pos := [c10_po], invoices := [c10_inv] }

theorem c10_invoice_frame_witness :
    c10_st'.pos = c10_st.pos ∧ c10_st'.bookings = c10_st.bookings :=
  (c10_invoice_frame c10_st c10_req true 2).1 7 c10_st'
    (Resp.json 201 (invoiceCreatedBody c10_inv)) (by decide)
    (Or.inr (by decide)) (by decide)

theorem pyOrEmptyStr_vstr (s : String) : pyOrEmptyStr (some (.vstr s)) = some s := by
  by_cases h : s = ""
  · subst h; rfl
  · simp [pyOrEmptyStr, Val.truthy, h]

/-- Invoice row after a successful send-for-validation. -/
def sentInvoice (inv : Invoice) (base : String) : Invoice :=
  { inv with
    status := .vstr "APPROVED"
    comments := some (.vstr (base ++ "\nInvoice sent for validation.")) }

/-- Claim C3: the send-invoice action proceeds only when the invoice's
current status is exactly "RECEIVED": in that case it sets the status to
"APPROVED" and appends the fixed audit line "Invoice sent for validation."
to comments; for any other current status it changes neither status nor
comments (the state is returned unchanged) and reports an "already
processed" outcome.  `base` is the invoice's comments rendered as a string
(the value of `inv.comments or ""`). -/
theorem c3_send_invoice_guard (st : AppState) (inv_id : Nat) (inv : Invoice) (base : String)
    (hfind : findInvoice st.invoices inv_id = some inv)
    (hbase : pyOrEmptyStr inv.comments = some base) :
    (inv.status = .vstr "RECEIVED" →
       send_invoice st inv_id = some
         ({ st with invoices := setInvoiceFirst st.invoices inv_id (sentInvoice inv base) },
          Resp.redirect "invoices"
            ("Invoice " ++ pyDisplay inv.invoice_number ++ " sent for validation.") "success") ∧
       findInvoice (setInvoiceFirst st.invoices inv_id (sentInvoice inv base)) inv_id
         = some (sentInvoice inv base)) ∧
    (inv.status ≠ .vstr "RECEIVED" →
       send_invoice st inv_id
         = some (st, Resp.redirect "invoices" "Invoice already processed." "warning")) := by
  have hid : inv.id = inv_id := by simpa using List.find?_some hfind
  constructor
  · intro hrec
    have hguard : ¬ (inv.status ≠ Val.vstr "RECEIVED") := by simp [hrec]
    constructor
    · rw [send_invoice, hfind]
      show (if inv.status ≠ Val.vstr "RECEIVED" then _ else _) = _
      rw [if_neg hguard]
      show (pyOrEmptyStr inv.comments).bind _ = _
      rw [hbase]
      rfl
    · exact setInvoiceFirst_find hfind (by simpa [sentInvoice] using hid)
  · intro hne
    rw [send_invoice, hfind]
    show (if inv.status ≠ Val.vstr "RECEIVED" then _ else _) = _
    rw [if_pos hne]

def c3_inv : Invoice :=
  { id := 1, invoice_number := some (.vstr "I1"), vendor := some (.vstr "V"),
    booking_id := some (.vnum 0), po_id := some (.vnum 0), amount := 0, tax_amount := 0,
    currency := .vstr "USD", status := .vstr "RECEIVED", comments := none, created_at := 0 }

def c3_st : AppState := { bookings := [], pos := [], invoices := [c3_inv] }

theorem c3_send_invoice_guard_witness :
    (c3_inv.status = .vstr "RECEIVED" →
       send_invoice c3_st 1 = some
         ({ c3_st with invoices := setInvoiceFirst c3_st.invoices 1 (sentInvoice c3_inv "") },
          Resp.redirect "invoices"
            ("Invoice " ++ pyDisplay c3_inv.invoice_number ++ " sent for validation.") "success") ∧
       findInvoice (setInvoiceFirst c3_st.invoices 1 (sentInvoice c3_inv "")) 1
         = some (sentInvoice c3_inv "")) ∧
    (c3_inv.status ≠ .vstr "RECEIVED" →
       send_invoice c3_st 1
         = some (c3_st, Resp.redirect "invoices" "Invoice already processed." "warning")) :=
  c3_send_invoice_guard c3_st 1 c3_inv "" (by decide) (by decide)

/-- Invoice row after the approve action. -/
def approvedInvoice (inv : Invoice) (base : String) : Invoice :=
  { inv with
    status := .vstr "APPROVED"
    comments := some (.vstr (base ++ "\nAuto-approved by Agent.")) }

/-- Invoice row after the flag action. -/
def flaggedInvoice (inv : Invoice) (base reason : String) : Invoice :=
  { inv with
    status := .vstr "FLAGGED"
    comments := some (.vstr (base ++ "\nFLAG: " ++ reason)) }

/-- Claim C7: performing the approve action and then the flag action on
the same stored invoice leaves it in final status "FLAGGED", with comments
equal to the original comments followed by the approve audit line
"Auto-approved by Agent." and then the flag line "FLAG: " plus the
caller-supplied or default reason, in that order.  `base` is the original
comments rendered as a string, `reason` the string value of
`data.get("reason") or "Flagged for manual review"`. -/
theorem api_approve_invoice_eq {st : AppState} {inv_id : Nat} {inv : Invoice} {base : String}
    (hfind : findInvoice st.invoices inv_id = some inv)
    (hbase : pyOrEmptyStr inv.comments = some base) :
    api_approve_invoice st inv_id = some
      ({ st with invoices := setInvoiceFirst st.invoices inv_id (approvedInvoice inv base) },
       Resp.json 200 [("message", .vstr "Invoice approved"), ("status", Val.vstr "APPROVED")]) := by
  rw [api_approve_invoice, hfind]
  show (pyOrEmptyStr inv.comments).bind _ = _
  rw [hbase]
  rfl

theorem api_flag_invoice_eq {st : AppState} {inv_id : Nat} {data : Req} {inv : Invoice}
    {base reason : String}
    (hfind : findInvoice st.invoices inv_id = some inv)
    (hreason : pyOr (data.get "reason") (.vstr "Flagged for manual review") = .vstr reason)
    (hbase : pyOrEmptyStr inv.comments = some base) :
    api_flag_invoice st inv_id data = some
      ({ st with invoices := setInvoiceFirst st.invoices inv_id (flaggedInvoice inv base reason) },
       Resp.json 200 [("message", .vstr "Invoice flagged"), ("status", Val.vstr "FLAGGED")]) := by
  rw [api_flag_invoice, hfind, hreason]
  show (pyOrEmptyStr inv.comments).bind _ = _
  rw [hbase]
  rfl

theorem c7_approve_then_flag (st : AppState) (inv_id : Nat) (inv : Invoice)
    (base reason : String) (data : Req)
    (hfind : findInvoice st.invoices inv_id = some inv)
    (hbase : pyOrEmptyStr inv.comments = some base)
    (hreason : pyOr (data.get "reason") (.vstr "Flagged for manual review") = .vstr reason) :
    ∃ st1 r1 st2 r2,
      api_approve_invoice st inv_id = some (st1, r1) ∧
      api_flag_invoice st1 inv_id data = some (st2, r2) ∧
      ∃ inv2, findInvoice st2.invoices inv_id = some inv2 ∧
        inv2.status = .vstr "FLAGGED" ∧
        inv2.comments
          = some (.vstr ((base ++ "\nAuto-approved by Agent.") ++ "\nFLAG: " ++ reason)) := by
  have hid : inv.id = inv_id := by simpa using List.find?_some hfind
  have happrove := api_approve_invoice_eq hfind hbase
  have hfind1 : findInvoice
      ({ st with invoices := setInvoiceFirst st.invoices inv_id (approvedInvoice inv base) }
        : AppState).invoices inv_id = some (approvedInvoice inv base) :=
    setInvoiceFirst_find hfind (by simpa [approvedInvoice] using hid)
  have hbase1 : pyOrEmptyStr (approvedInvoice inv base).comments
      = some (base ++ "\nAuto-approved by Agent.") := pyOrEmptyStr_vstr _
  have hflag := api_flag_invoice_eq hfind1 hreason hbase1
  refine ⟨_, _, _, _, happrove, hflag, ?_⟩
  refine ⟨flaggedInvoice (approvedInvoice inv base)
    (base ++ "\nAuto-approved by Agent.") reason, ?_, rfl, rfl⟩
  exact setInvoiceFirst_find hfind1 (by simpa [flaggedInvoice, approvedInvoice] using hid)

def c7_inv : Invoice :=
  { id := 1, invoice_number := some (.vstr "I1"), vendor := some (.vstr "V"),
    booking_id := some (.vnum 0), po_id := some (.vnum 0), amount := 0, tax_amount := 0,
    currency := .vstr "USD", status := .vstr "RECEIVED", comments := none, created_at := 0 }

def c7_st : AppState := { bookings := [], pos := [], invoices := [c7_inv] }

theorem c7_approve_then_flag_witness :
    ∃ st1 r1 st2 r2,
      api_approve_invoice c7_st 1 = some (st1, r1) ∧
      api_flag_invoice st1 1 [] = some (st2, r2) ∧
      ∃ inv2, findInvoice st2.invoices 1 = some inv2 ∧
        inv2.status = .vstr "FLAGGED" ∧
        inv2.comments
          = some (.vstr (("" ++ "\nAuto-approved by Agent.")
              ++ "\nFLAG: " ++ "Flagged for manual review")) :=
  c7_approve_then_flag c7_st 1 c7_inv "" "Flagged for manual review" []
    (by decide) (by decide) (by decide)

def c2_po : PurchaseOrder :=
  { id := 1, po_number := .vstr "PO-1", vendor := .vstr "V", booking_id := 0,
    total_amount := 0, currency := .vstr "USD", status := .vstr "CREATED", created_at := 0 }

def c2_st : AppState := { bookings := [], pos := [c2_po], invoices := [] }

def c2_req : Req := [("po_number", .vstr "PO-1")]

/-- Claim C2, counterexample: in a state holding exactly one purchase
order, with po_number "PO-1", a form-path creation request that supplies
the same po_number but no vendor is answered with HTTP 400 ("vendor is
required"), not HTTP 409: the vendor required-field check precedes the
duplicate check, so the claim does not hold for every creation request
carrying a duplicate po_number. -/
theorem c2_counterexample :
    c2_st.pos.map PurchaseOrder.po_number = [Val.vstr "PO-1"] ∧
    c2_req.get "po_number" = some (.vstr "PO-1") ∧
    purchase_orders_post c2_st c2_req true 0
      = some (c2_st, .json 400 [("error", .vstr "vendor is required")]) ∧
    purchase_orders_post c2_st c2_req true 0
      ≠ some (c2_st, .json 409 [("error", .vstr "PO number already exists")]) := by
  refine ⟨rfl, rfl, by decide, by decide⟩

/-- Claim C2 (amended): provided the request passes the validations that
precede the duplicate check (form path: truthy po_number and vendor; API
path: truthy booking_id resolving to a stored booking), a creation request
whose po_number equals that of a stored order is rejected with HTTP 409
(an error redirect for non-JSON form callers) and the state is returned
unchanged, so no row is inserted and the count of orders carrying that
po_number stays 1. -/
theorem c2_duplicate_po_rejected (st : AppState) (req : Req) (isJson : Bool) (now : Nat)
    (pn : Val)
    (hpn : req.get "po_number" = some pn) (htr : pn.truthy = true)
    (hdup : (st.pos.find? (fun po => po.po_number = pn)).isSome = true) :
    (optTruthy (req.get "vendor") = true →
       purchase_orders_post st req isJson now
         = some (st, if isJson then Resp.json 409 [("error", .vstr "PO number already exists")]
                     else Resp.redirect "purchase_orders"
                       "PO Number already exists. Please enter a different value." "danger")) ∧
    (∀ v b, req.get "booking_id" = some v → findBookingByKey st.bookings v = some b →
       v.truthy = true →
       api_create_po st req now
         = some (st, Resp.json 409 [("error", .vstr "PO number already exists")])) := by
  constructor
  · intro hvd
    simp only [purchase_orders_post, hpn, Option.getD_some]
    rw [if_neg (by simp [optTruthy, htr]), if_neg (by simp [hvd]), if_pos hdup]
  · intro v b hbid hfindb hvtr
    simp only [api_create_po, hbid, hpn, Option.getD_some]
    rw [if_neg (by simp [optTruthy, hvtr]), hfindb]
    simp only [optTruthy, htr, if_pos, hdup, if_true]

def c2_req2 : Req := [("po_number", .vstr "PO-1"), ("vendor", .vstr "W")]

theorem c2_duplicate_po_rejected_witness :
    purchase_orders_post c2_st c2_req2 true 0
      = some (c2_st, if true then Resp.json 409 [("error", .vstr "PO number already exists")]
                     else Resp.redirect "purchase_orders"
                       "PO Number already exists. Please enter a different value." "danger") :=
  (c2_duplicate_po_rejected c2_st c2_req2 true 0 (.vstr "PO-1") (by decide) (by decide)
    (by decide)).1 (by decide)

/-- Claim C9: for every booking id, the has-po query returns the not-found
outcome when no booking with that id is stored; otherwise it returns
has_po equal to whether at least one stored purchase order references that
booking, po_count equal to the number of such orders, and a list with one
entry (id, po_number, status, amount, created_at) per such order, in
stored insertion order (the filtered store list, mapped to entries). -/
theorem c9_has_po_query (st : AppState) (bid : Nat) :
    (st.bookings.find? (fun b => b.id = bid) = none →
       api_booking_has_po st bid = .notFound) ∧
    ((st.bookings.find? (fun b => b.id = bid)).isSome = true →
       api_booking_has_po st bid
         = .ok bid (decide (0 < (bookingPOs st.pos bid).length))
             (bookingPOs st.pos bid).length ((bookingPOs st.pos bid).map poEntry) ∧
       (bookingPOs st.pos bid).length
         = (st.pos.filter (fun po => po.booking_id = (bid : Int))).length ∧
       (decide (0 < (bookingPOs st.pos bid).length) = true ↔
          ∃ po ∈ st.pos, po.booking_id = (bid : Int))) := by
  constructor
  · intro h
    rw [api_booking_has_po, h]
  · intro h
    obtain ⟨b0, hb⟩ := Option.isSome_iff_exists.mp h
    refine ⟨by rw [api_booking_has_po, hb], rfl, ?_⟩
    rw [decide_eq_true_eq, List.length_pos]
    constructor
    · intro hne
      obtain ⟨po, hpo⟩ := List.exists_mem_of_ne_nil _ hne
      have := List.mem_filter.mp hpo
      exact ⟨po, this.1, by simpa using this.2⟩
    · rintro ⟨po, hmem, hbidq⟩ hnil
      have : po ∈ bookingPOs st.pos bid :=
        List.mem_filter.mpr ⟨hmem, by simpa using hbidq⟩
      rw [hnil] at this
      simp at this

def c9_bk : MediaBooking :=
  { id := 1, campaign_name := some (.vstr "C"), channel := some (.vstr "TV"),
    market := none, vendor := none, start_date := none, end_date := none,
    unit_rate := 0, units := 0, budget := 0, currency := .vstr "USD",
    status := .vstr "PLANNED", created_at := 0 }

def c9_po : PurchaseOrder :=
  { id := 1, po_number := .vstr "PO-1", vendor := .vstr "V", booking_id := 1,
    total_amount := 3, currency := .vstr "USD", status := .vstr "CREATED", created_at := 9 }

def c9_st : AppState := { bookings := [c9_bk], pos := [c9_po], invoices := [] }

theorem c9_has_po_query_witness :
    api_booking_has_po c9_st 1
      = .ok 1 (decide (0 < (bookingPOs c9_st.pos 1).length))
          (bookingPOs c9_st.pos 1).length ((bookingPOs c9_st.pos 1).map poEntry) ∧
    (bookingPOs c9_st.pos 1).length
      = (c9_st.pos.filter (fun po => po.booking_id = ((1 : Nat) : Int))).length ∧
    (decide (0 < (bookingPOs c9_st.pos 1).length) = true ↔
       ∃ po ∈ c9_st.pos, po.booking_id = ((1 : Nat) : Int)) :=
  (c9_has_po_query c9_st 1).2 (by decide)

theorem api_create_po_finish_created {st : AppState} {data : Req} {now : Nat}
    {booking : MediaBooking} {pnv : Val} {st' : AppState} {body : List (String × Val)}
    (h : api_create_po_finish st data now booking pnv = some (st', Resp.json 201 body)) :
    ∃ bid ta, pyInt ((data.get "booking_id").getD .vnull) = some bid ∧
      floatOrZero (data.get "total_amount") = some ta ∧
      st' = { st with pos := st.pos ++ [apiPoRow st data now booking pnv bid ta] } := by
  unfold api_create_po_finish at h
  by_cases hvs : optTruthy (if optTruthy (data.get "vendor") then data.get "vendor"
      else booking.vendor) = false
  · rw [if_pos hvs] at h
    simp at h
  · rw [if_neg hvs] at h
    cases hbid : pyInt ((data.get "booking_id").getD .vnull) with
    | none => simp [hbid] at h
    | some bid =>
      cases hta : floatOrZero (data.get "total_amount") with
      | none => simp [hbid, hta] at h
      | some ta =>
        rw [hbid, hta] at h
        refine ⟨bid, ta, rfl, rfl, (congrArg Prod.fst (Option.some.inj h)).symm⟩

theorem api_create_po_created {st : AppState} {data : Req} {now : Nat}
    {st' : AppState} {body : List (String × Val)}
    (h : api_create_po st data now = some (st', Resp.json 201 body)) :
    ∃ v b, data.get "booking_id" = some v ∧ v.truthy = true ∧
      findBookingByKey st.bookings v = some b ∧
      ∃ bid ta, pyInt v = some bid ∧ floatOrZero (data.get "total_amount") = some ta ∧
        st' = { st with pos := st.pos ++
          [apiPoRow st data now b
            (if optTruthy (data.get "po_number") = true
             then (data.get "po_number").getD .vnull
             else .vstr ("PO-" ++ toString now)) bid ta] } := by
  unfold api_create_po at h
  by_cases h1 : optTruthy (data.get "booking_id") = false
  · rw [if_pos h1] at h
    simp at h
  · rw [if_neg h1] at h
    cases hv : data.get "booking_id" with
    | none => exact absurd (by rw [hv]; rfl) h1
    | some v =>
      have htr : v.truthy = true := by
        cases hvt : v.truthy
        · exact absurd (by rw [hv]; simp [optTruthy, hvt]) h1
        · rfl
      rw [hv] at h
      simp only [Option.getD_some] at h
      cases hb : findBookingByKey st.bookings v with
      | none => rw [hb] at h; simp at h
      | some b =>
        rw [hb] at h
        refine ⟨v, b, ?_, htr, ?_, ?_⟩
        · rfl
        · first
          | rfl
          | exact hb
        by_cases hpn : optTruthy (data.get "po_number") = true
        · by_cases hdup :
              (st.pos.find? (fun po =>
                po.po_number = (data.get "po_number").getD .vnull)).isSome = true
          · simp [hpn, hdup] at h
          · simp only [hpn, hdup, if_true, if_false, eq_self_iff_true] at h
            obtain ⟨bid, ta, hbid, hta, hst⟩ := api_create_po_finish_created h
            rw [hv, Option.getD_some] at hbid
            exact ⟨bid, ta, hbid, hta, by rw [hst, if_pos hpn]⟩
        · simp only [hpn, if_false, Bool.false_eq_true] at h
          obtain ⟨bid, ta, hbid, hta, hst⟩ := api_create_po_finish_created h
          rw [hv, Option.getD_some] at hbid
          exact ⟨bid, ta, hbid, hta, by rw [hst, if_neg hpn]⟩

/-- Claim C4: for every API purchase-order creation request: a missing
booking_id yields HTTP 400 (the handler's required-field check, which
treats a present-but-falsy value the same way); a truthy booking_id
referencing no stored booking yields HTTP 404; when po_number is omitted,
any created order carries the auto-generated number "PO-" concatenated
with the current Unix timestamp in whole seconds; when vendor is omitted,
any created order carries the referenced booking's vendor, and if the
vendor is still empty after that substitution (and the duplicate check did
not fire first) the result is HTTP 400; an explicitly supplied (truthy)
vendor is stored as given. -/
theorem c4_api_create_po_contract (st : AppState) (data : Req) (now : Nat) :
    (data.get "booking_id" = none →
       api_create_po st data now
         = some (st, Resp.json 400 [("error", .vstr "booking_id is required")])) ∧
    (∀ v, data.get "booking_id" = some v → v.truthy = true →
       findBookingByKey st.bookings v = none →
       api_create_po st data now
         = some (st, Resp.json 404 [("error", .vstr "Invalid booking_id")])) ∧
    (data.get "po_number" = none →
       ∀ st' body, api_create_po st data now = some (st', Resp.json 201 body) →
         ∃ po, st'.pos = st.pos ++ [po] ∧
           po.po_number = .vstr ("PO-" ++ toString now)) ∧
    (∀ v b w, data.get "booking_id" = some v → findBookingByKey st.bookings v = some b →
       data.get "vendor" = none → b.vendor = some w →
       ∀ st' body, api_create_po st data now = some (st', Resp.json 201 body) →
         ∃ po, st'.pos = st.pos ++ [po] ∧ po.vendor = w) ∧
    (∀ v b, data.get "booking_id" = some v → v.truthy = true →
       findBookingByKey st.bookings v = some b →
       data.get "vendor" = none → optTruthy b.vendor = false →
       (optTruthy (data.get "po_number") = true →
         (st.pos.find? (fun po =>
           po.po_number = (data.get "po_number").getD .vnull)).isSome = false) →
       api_create_po st data now
         = some (st, Resp.json 400 [("error", .vstr "vendor is required")])) ∧
    (∀ w, data.get "vendor" = some w → w.truthy = true →
       ∀ st' body, api_create_po st data now = some (st', Resp.json 201 body) →
         ∃ po, st'.pos = st.pos ++ [po] ∧ po.vendor = w) := by
  refine ⟨?_, ?_, ?_, ?_, ?_, ?_⟩
  · intro hmiss
    rw [api_create_po, if_pos (by rw [hmiss]; rfl)]
  · intro v hv htr hnf
    rw [api_create_po, if_neg (by rw [hv]; simp [optTruthy, htr]), hv]
    simp only [Option.getD_some]
    rw [hnf]
  · intro hpn st' body h
    obtain ⟨v, b, hv, htr, hb, bid, ta, hbid, hta, hst⟩ := api_create_po_created h
    refine ⟨_, by rw [hst], ?_⟩
    simp [apiPoRow, hpn, optTruthy]
  · intro v b w hv hb hvd hbw st' body h
    obtain ⟨v2, b2, hv2, htr2, hb2, bid, ta, hbid, hta, hst⟩ := api_create_po_created h
    obtain rfl : v = v2 := by rw [hv] at hv2; simpa using hv2
    obtain rfl : b = b2 := by rw [hb] at hb2; simpa using hb2
    refine ⟨_, by rw [hst], ?_⟩
    simp [apiPoRow, hvd, optTruthy, hbw]
  · intro v b hv htr hb hvd hbveq hnodup
    rw [api_create_po, if_neg (by rw [hv]; simp [optTruthy, htr]), hv]
    simp only [Option.getD_some]
    rw [hb]
    have hfin : api_create_po_finish st data now b
        (if optTruthy (data.get "po_number") = true
         then (data.get "po_number").getD .vnull
         else .vstr ("PO-" ++ toString now))
        = some (st, Resp.json 400 [("error", .vstr "vendor is required")]) := by
      rw [api_create_po_finish, if_pos (by rw [hvd]; simpa [optTruthy] using hbveq)]
    by_cases hpn : optTruthy (data.get "po_number") = true
    · rw [if_pos hpn] at hfin
      simp only [hpn, hnodup hpn, if_true, Bool.false_eq_true, if_false, eq_self_iff_true]
      exact hfin
    · rw [if_neg hpn] at hfin
      simp only [hpn, if_false, Bool.false_eq_true, eq_self_iff_true, if_true]
      exact hfin
  · intro w hw htrw st' body h
    obtain ⟨v, b, hv, htr, hb, bid, ta, hbid, hta, hst⟩ := api_create_po_created h
    refine ⟨_, by rw [hst], ?_⟩
    simp [apiPoRow, hw, optTruthy, htrw]

def c4_bk : MediaBooking :=
  { id := 1, campaign_name := some (.vstr "C"), channel := some (.vstr "TV"),
    market := none, vendor := some (.vstr "Acme Media"), start_date := none,
    end_date := none, unit_rate := 0, units := 0, budget := 0,
    currency := .vstr "USD", status := .vstr "PLANNED", created_at := 0 }

def c4_st : AppState := { bookings := [c4_bk], pos := [], invoices := [] }

def c4_req : Req := [("booking_id", .vnum 1), ("vendor", .vstr "Acme")]

def c4_row : PurchaseOrder :=
  { id := 1, po_number := .vstr "PO-77", vendor := .vstr "Acme", booking_id := 1,
    total_amount := 0, currency := .vstr "USD", status := .vstr "CREATED", created_at := 77 }

def c4_body : List (String × Val) :=
  [("id", .vnum 1), ("po_number", .vstr "PO-77"), ("booking_id", .vnum 1),
   ("status", .vstr "CREATED"), ("message", .vstr "PO created successfully")]

theorem c4_api_create_po_contract_witness :
    (∃ po, ({ c4_st with pos := c4_st.pos ++ [c4_row] } : AppState).pos = c4_st.pos ++ [po] ∧
       po.po_number = .vstr ("PO-" ++ toString 77)) ∧
    (∃ po, ({ c4_st with pos := c4_st.pos ++ [c4_row] } : AppState).pos = c4_st.pos ++ [po] ∧
       po.vendor = .vstr "Acme") := by
  have hrun : api_create_po c4_st c4_req 77
      = some ({ c4_st with pos := c4_st.pos ++ [c4_row] }, Resp.json 201 c4_body) := by decide
  constructor
  · exact ((c4_api_create_po_contract c4_st c4_req 77).2.2.1 (by decide) _ c4_body hrun)
  · exact ((c4_api_create_po_contract c4_st c4_req 77).2.2.2.2.2 (.vstr "Acme") (by decide)
      (by decide) _ c4_body hrun)

end MediaApp
